import Mathlib

/-!
Shallow embedding of the LeBy backend core (src/backend/ml_logic.py and the
session registry in src/backend/main.py).

External collaborators are modelled as oracle parameters supplied to each
operation, never as stubs of repository code:
* the Gemini embedding call (genai.embed_content) is an oracle
  `String -> Option vector`; `none` models a raised exception;
* the Gemini generation call (model.generate_content) is an oracle
  `String -> Option (Option String)`; outer `none` models a raised exception,
  the inner `Option String` models getattr(resp, "text", default) — `none`
  when the response object has no text attribute;
* the LangChain RecursiveCharacterTextSplitter is an oracle
  `String -> List String` (the chunk texts);
* the FAISS index over one session is represented by the list of chunk texts
  successfully embedded and added, in insertion order; a per-chunk oracle
  `String -> Bool` says whether FAISS.from_texts / add_texts on that chunk
  succeeds (false models a raised exception, e.g. an embedding failure);
  save_local on a real index is assumed to succeed (disk I/O is out of
  scope), while save_local on None raises AttributeError deterministically.

Python exceptions are modelled with Except; Python mutation of
DocumentSession is modelled by returning the updated session, and an
operation that raises returns the state exactly as it was at the raise
point, following the statement order of the source.
-/

namespace LeBy

/-- `VECTOR_STORE_DIR` from ml_logic.py section 1. -/
def VECTOR_STORE_DIR : String := "vector_stores"

/-- `GoogleSDKEmbeddings.embed_documents` (ml_logic.py lines 42-55): loop
over the texts; on a successful embed_content call append the vector, on an
exception print and skip.  The oracle `embed` gives each call outcome. -/
def embed_documents (embed : String → Option (List Int)) : List String → List (List Int)
  | [] => []
  | t :: ts =>
    match embed t with
    | some v => v :: embed_documents embed ts
    | none => embed_documents embed ts

/-- Outcome object of a successful probe call in `_pick_model`:
`hasText` models hasattr(r, "text"), `hasCandidates` models the truthiness
of getattr(r, "candidates", None). -/
structure ProbeResponse where
  hasText : Bool
  hasCandidates : Bool
  deriving DecidableEq

/-- The acceptance test of `_pick_model` (ml_logic.py line 82). -/
def probeAccept (r : ProbeResponse) : Bool := r.hasText || r.hasCandidates

/-- Message of the RuntimeError raised by `_pick_model` when no candidate works. -/
def PICK_MODEL_ERROR : String := "❌ No compatible Gemini chat model found for this API key."

/-- The loop body of `_pick_model` (ml_logic.py lines 78-88) over an arbitrary
candidate list.  `probe m = none` models generate_content raising for model
`m`; an accepted response returns `m`, anything else falls through to the
next candidate. -/
def pickModelLoop (probe : String → Option ProbeResponse) : List String → Except String String
  | [] => Except.error PICK_MODEL_ERROR
  | m :: rest =>
    match probe m with
    | some r => if probeAccept r then Except.ok m else pickModelLoop probe rest
    | none => pickModelLoop probe rest

/-- The candidate list hard-coded in `_pick_model` (ml_logic.py line 77). -/
def CANDIDATE_MODELS : List String := ["gemini-2.0-flash"]

/-- `_pick_model` (ml_logic.py lines 72-88). -/
def _pick_model (probe : String → Option ProbeResponse) : Except String String :=
  pickModelLoop probe CANDIDATE_MODELS

/-- The combined per-candidate test of the `_pick_model` loop: the probe call
does not raise and its response is accepted. -/
def probeResult (probe : String → Option ProbeResponse) (m : String) : Bool :=
  match probe m with
  | some r => probeAccept r
  | none => false

/-- The placeholder sentinel of `DocumentSession._generate`. -/
def NO_RESPONSE_SENTINEL : String := "⚠️ No response generated."

/-- Python str.strip on the character list: drop whitespace from both
ends. -/
def stripChars (l : List Char) : List Char :=
  ((l.dropWhile Char.isWhitespace).reverse.dropWhile Char.isWhitespace).reverse

/-- Python str.strip. -/
def pyStrip (s : String) : String :=
  String.mk (stripChars s.data)

/-- `DocumentSession._generate` (ml_logic.py lines 155-158), after the
generate_content call has succeeded with response text attribute `respText`
(`none` = attribute absent, so getattr returns the default ""):
`getattr(resp, "text", "").strip() or "⚠️ No response generated."`. -/
def _generate (respText : Option String) : String :=
  let t := pyStrip (respText.getD "")
  if t = "" then NO_RESPONSE_SENTINEL else t

/-- One iteration of the construction loop of
`DocumentSession._prepare_vector_store` (ml_logic.py lines 136-147): if the
per-chunk work succeeds, a `none` db is initialized by FAISS.from_texts and
an existing db gets add_texts; if it raises, the chunk is skipped and db is
left as it was. -/
def addChunk (embedOk : String → Bool) (db : Option (List String)) (c : String) :
    Option (List String) :=
  if embedOk c then
    match db with
    | none => some [c]
    | some ix => some (ix ++ [c])
  else db

/-- Message of the AttributeError raised by `_save_faiss(None, path)`
(ml_logic.py lines 104-105 and 149) when no chunk ever succeeded. -/
def SAVE_NONE_ERROR : String := "AttributeError: NoneType object has no attribute save_local"

/-- `DocumentSession._prepare_vector_store` (ml_logic.py lines 131-150):
fold the loop over the chunks starting from db = None, then `_save_faiss`,
which raises AttributeError when db is still None. -/
def _prepare_vector_store (embedOk : String → Bool) (chunks : List String) :
    Except String (List String) :=
  match chunks.foldl (addChunk embedOk) none with
  | none => Except.error SAVE_NONE_ERROR
  | some ix => Except.ok ix

/-- One history entry, the Python dict literal
`{"user": query, "assistant": answer}` (ml_logic.py line 239). -/
structure HistEntry where
  user : String
  assistant : String
  deriving DecidableEq

/-- `DocumentSession` attributes set by `__init__` (ml_logic.py lines 121-126).
The FAISS index itself is not a field: the source keeps it only on disk at
`vector_store_path` and reloads it on each query. -/
structure DocumentSession where
  session_id : String
  full_text : String
  vector_store_path : String
  history : List HistEntry
  deriving DecidableEq

/-- `DocumentSession.__init__` (ml_logic.py lines 121-126) with an explicit
session id (the background task always passes one): set the attributes, run
`_prepare_vector_store` (whose exception propagates), then `history = []`. -/
def mkDocumentSession (chunker : String → List String) (embedOk : String → Bool)
    (full_text : String) (session_id : String) : Except String DocumentSession :=
  match _prepare_vector_store embedOk (chunker full_text) with
  | Except.error e => Except.error e
  | Except.ok _ =>
      Except.ok
        { session_id := session_id
          full_text := full_text
          vector_store_path := VECTOR_STORE_DIR ++ "/" ++ session_id
          history := [] }

/-- The prompt of `DocumentSession.get_initial_summary` (ml_logic.py lines 168-180). -/
def summaryPrompt (full_text : String) : String :=
  "You are an expert legal summarizer. " ++
  "Summarize the document concisely and professionally in markdown.\n\n" ++
  "Guidelines:\n" ++
  "- Length: under 250 words total.\n" ++
  "- Structure: Purpose, Key Parties, Key Clauses/Obligations, Important Dates, and Notable Points.\n" ++
  "- Use short phrases or single-sentence bullets.\n" ++
  "- Avoid repetition and filler words.\n" ++
  "- Use clear section headers with **bold** labels (no *asterisks*).\n\n" ++
  "Document text:\n" ++ full_text.take 8000 ++ "\n\n" ++
  "Now output the summary directly in markdown without preamble or closing lines."

/-- `DocumentSession.get_initial_summary` (ml_logic.py lines 163-181): one
generation call on `summaryPrompt`; a raised exception propagates, otherwise
the `_generate` post-processing is applied. -/
def get_initial_summary (gen : String → Option (Option String)) (s : DocumentSession) :
    Except String String :=
  match gen (summaryPrompt s.full_text) with
  | none => Except.error "generate_content raised"
  | some t => Except.ok (_generate t)

/-- The fixed leading text of the `answer_query` prompt
(ml_logic.py lines 210-224). -/
def answerPromptHead : String :=
  "You are an intelligent, practical legal assistant.\n" ++
  "USE the provided document context to answer. If the question is broad " ++
  "(e.g., \x27what should I do next?\x27), infer the most likely next steps from the context " ++
  "and provide a concrete action plan.\n\n" ++
  "STYLE & LENGTH CONSTRAINTS:\n" ++
  "- Total length: UNDER 150 words.\n" ++
  "- Be direct. No filler, no disclaimers.\n" ++
  "- Use **bold** section labels and short bullets starting with \x27* \x27.\n" ++
  "- If something is missing, infer from context and clearly state assumptions.\n\n" ++
  "RESPONSE FORMAT (strict):\n" ++
  "1) **Direct Answer / Next Steps** – 1–2 sentences max.\n" ++
  "2) **Action Plan** – 3–5 bullets (who to contact, deadlines, documents to gather).\n" ++
  "3) **Risks / Caveats** – up to 3 bullets (only if relevant).\n" ++
  "4) **Clarify** – up to 3 short questions ONLY if critical.\n\n"

/-- Prompt assembly of `answer_query` (ml_logic.py lines 210-234), as a
function of the four interpolated pieces. -/
def answerPrompt (history_block query context safety_slice : String) : String :=
  answerPromptHead ++ history_block ++
  "User question:\n" ++ query ++
  "\n\n--- Retrieved context from the document ---\n" ++ context ++
  "\n-------------------------------------------\n\n" ++
  "--- Safety slice of full document (fallback) ---\n" ++ safety_slice ++
  "\n------------------------------------------------\n\n" ++
  "Now produce the response EXACTLY in the format above, within 150 words."

/-- Rendering of one history pair inside the memory block
(ml_logic.py line 206). -/
def renderHistoryPair (h : HistEntry) : String :=
  "User: " ++ h.user ++ "\nAssistant: " ++ h.assistant

/-- The conversation-memory block of `answer_query` (ml_logic.py lines
204-207): empty when the history is empty, else the last up to 5 entries
(Python history[-5:] = drop (length - 5)) joined with blank lines. -/
def historyBlock (history : List HistEntry) : String :=
  if history.isEmpty then ""
  else
    "Recent conversation:\n" ++
    String.intercalate "\n\n" ((history.drop (history.length - 5)).map renderHistoryPair) ++
    "\n\n"

/-- The retrieval query of `answer_query` (ml_logic.py line 197):
Python `query or "next steps action plan"` — the fallback is used exactly
when `query` is the empty string. -/
def effectiveQuery (query : String) : String :=
  if query = "" then "next steps action plan" else query

/-- The full prompt `answer_query` sends to the Generation Gateway
(ml_logic.py lines 198-234), given the retrieved chunk texts `docs`:
context = "\n\n".join(doc texts), safety_slice = full_text[:2000]. -/
def promptOf (docs : List String) (s : DocumentSession) (query : String) : String :=
  answerPrompt (historyBlock s.history) query
    (String.intercalate "\n\n" docs) (s.full_text.take 2000)

/-- The history cap of `answer_query` (ml_logic.py lines 240-241):
`if len(history) > 25: history = history[-25:]`. -/
def trimHistory (h : List HistEntry) : List HistEntry :=
  if h.length > 25 then h.drop (h.length - 25) else h

/-- Append one pair then apply the cap: the whole history mutation of one
successful `answer_query` call (ml_logic.py lines 239-241). -/
def trimStep (h : List HistEntry) (p : HistEntry) : List HistEntry :=
  trimHistory (h ++ [p])

/-- Oracle outcomes of the external calls made by one `answer_query` call:
`load_ok` — whether `_load_faiss` succeeds (ml_logic.py line 195);
`retrieve` — the retriever call (line 197), `none` = it raises, `some docs`
= the retrieved chunk texts; `gen` — the generation call on the assembled
prompt, as in `_generate`. -/
structure QueryEnv where
  load_ok : Bool
  retrieve : String → Option (List String)
  gen : String → Option (Option String)

/-- `DocumentSession.answer_query` (ml_logic.py lines 186-243).  Returns the
Python result (answer or raised exception) together with the session state
after the call; the history append (lines 239-241) is the last step, so
every raise leaves the session exactly as it was. -/
def answer_query (env : QueryEnv) (s : DocumentSession) (query : String) :
    Except String String × DocumentSession :=
  if env.load_ok then
    match env.retrieve (effectiveQuery query) with
    | none => (Except.error "get_relevant_documents raised", s)
    | some docs =>
      match env.gen (promptOf docs s query) with
      | none => (Except.error "generate_content raised", s)
      | some t =>
        let answer := _generate t
        (Except.ok answer,
          { s with history := trimHistory (s.history ++ [⟨query, answer⟩]) })
  else (Except.error "load_local raised", s)

/-- A sequence of `answer_query` calls on one session, each with its own
oracle outcomes; stops at the first raised exception, otherwise returns the
final session together with the (query, answer) pairs produced, in call
order. -/
def runCalls (s : DocumentSession) :
    List (QueryEnv × String) → Except String (DocumentSession × List HistEntry)
  | [] => Except.ok (s, [])
  | c :: cs =>
    match answer_query c.1 s c.2 with
    | (Except.ok ans, s₁) =>
      match runCalls s₁ cs with
      | Except.ok (sF, ps) => Except.ok (sF, ⟨c.2, ans⟩ :: ps)
      | Except.error e => Except.error e
    | (Except.error e, _) => Except.error e

/-- The status strings of the session registry in main.py (lines 102, 78, 85).
PROCESSING is the "constructing" state the spec calls CONSTRUCTING. -/
inductive SessionStatus
  | PROCESSING
  | READY
  | ERROR
  deriving DecidableEq

/-- One value of the `sessions` registry dict (main.py lines 102-107). -/
structure RegistryEntry where
  status : SessionStatus
  filename : String
  summary : Option String
  session_object : Option DocumentSession
  deriving DecidableEq

/-- Oracle outcomes of the external calls made by one run of the background
task: the chunker, the per-chunk index construction outcome, and the
generation call used for the initial summary. -/
structure BackgroundEnv where
  chunker : String → List String
  embedOk : String → Bool
  gen : String → Option (Option String)

/-- `_process_text_background` (main.py lines 67-85): construct the
DocumentSession, compute the initial summary, then set status READY; any
exception in either step is caught and sets status ERROR, keeping the rest
of the entry. -/
def _process_text_background (env : BackgroundEnv) (text session_id : String)
    (entry : RegistryEntry) : RegistryEntry :=
  match mkDocumentSession env.chunker env.embedOk text session_id with
  | Except.error _ => { entry with status := SessionStatus.ERROR }
  | Except.ok ds =>
    match get_initial_summary env.gen ds with
    | Except.error _ => { entry with status := SessionStatus.ERROR }
    | Except.ok summary =>
      { entry with
          session_object := some ds
          summary := some summary
          status := SessionStatus.READY }

/-! Concrete fixtures used by counterexamples and witnesses. -/

/-- A fresh registry entry as created by `/session/start-from-text`
(main.py lines 102-107). -/
def entry0 : RegistryEntry :=
  { status := SessionStatus.PROCESSING
    filename := "doc.txt"
    summary := none
    session_object := none }

/-- Background oracle: one chunk, which embeds fine, but the summary
generation call raises. -/
def bgEnvSummaryFails : BackgroundEnv :=
  { chunker := fun _ => ["chunk"], embedOk := fun _ => true, gen := fun _ => none }

/-- Background oracle: the chunker yields zero segments and everything else
succeeds. -/
def bgEnvNoChunks : BackgroundEnv :=
  { chunker := fun _ => [], embedOk := fun _ => true, gen := fun _ => some (some "S") }

/-- Per-chunk success oracle under which only the chunk "b" embeds. -/
def onlyB : String → Bool := fun c => c == "b"

/-- Query oracle: every external call succeeds and generation yields "A". -/
def qEnvOk : QueryEnv :=
  { load_ok := true, retrieve := fun _ => some ["doc"], gen := fun _ => some (some "A") }

/-- Query oracle: loading the persisted index raises. -/
def qEnvLoadFails : QueryEnv :=
  { load_ok := false, retrieve := fun _ => some [], gen := fun _ => some (some "A") }

/-- A freshly constructed sample session. -/
def sampleSession : DocumentSession :=
  { session_id := "s1"
    full_text := "text"
    vector_store_path := "vector_stores/s1"
    history := [] }

/-- `sampleSession` after one successful call answering "A" to "q". -/
def sampleSession1 : DocumentSession :=
  { sampleSession with history := [⟨"q", "A"⟩] }

/-- 26 identical successful calls. -/
def calls26 : List (QueryEnv × String) := List.replicate 26 (qEnvOk, "q")

/-- The (query, answer) pairs produced by `calls26`. -/
def pairs26 : List HistEntry := List.replicate 26 ⟨"q", "A"⟩

/-- The session state after running `calls26` on `sampleSession`. -/
def sessionAfter26 : DocumentSession :=
  { sampleSession with history := List.replicate 25 ⟨"q", "A"⟩ }

/-! Supporting lemmas. -/

/-- Once the construction loop holds a real index, every later successful
chunk is appended and every failing chunk is skipped. -/
theorem foldl_addChunk_some (embedOk : String → Bool) (chunks : List String) :
    ∀ acc : List String,
      chunks.foldl (addChunk embedOk) (some acc) =
        some (acc ++ chunks.filter fun c => embedOk c) := by
  induction chunks with
  | nil => intro acc; simp
  | cons c cs ih =>
    intro acc
    by_cases h : embedOk c
    · rw [List.foldl_cons]
      have ha : addChunk embedOk (some acc) c = some (acc ++ [c]) := by simp [addChunk, h]
      rw [ha, ih]
      simp [List.filter_cons, h]
    · rw [List.foldl_cons]
      have ha : addChunk embedOk (some acc) c = some acc := by simp [addChunk, h]
      rw [ha, ih]
      simp [List.filter_cons, h]

/-- The construction loop from db = None ends with None exactly when no
chunk succeeded, and otherwise holds the successful chunks in order. -/
theorem foldl_addChunk_none (embedOk : String → Bool) (chunks : List String) :
    chunks.foldl (addChunk embedOk) none =
      if (chunks.filter fun c => embedOk c) = [] then none
      else some (chunks.filter fun c => embedOk c) := by
  induction chunks with
  | nil => simp
  | cons c cs ih =>
    by_cases h : embedOk c
    · rw [List.foldl_cons]
      have ha : addChunk embedOk none c = some [c] := by simp [addChunk, h]
      rw [ha, foldl_addChunk_some]
      simp [List.filter_cons, h]
    · rw [List.foldl_cons]
      have ha : addChunk embedOk none c = none := by simp [addChunk, h]
      rw [ha, ih]
      simp [List.filter_cons, h]

/-- Closed form of `_prepare_vector_store`: it raises exactly when no chunk
embeds, and otherwise the index holds the surviving chunks in order. -/
theorem prepare_vector_store_eq (embedOk : String → Bool) (chunks : List String) :
    _prepare_vector_store embedOk chunks =
      if (chunks.filter fun c => embedOk c) = [] then Except.error SAVE_NONE_ERROR
      else Except.ok (chunks.filter fun c => embedOk c) := by
  unfold _prepare_vector_store
  rw [foldl_addChunk_none]
  by_cases h : (chunks.filter fun c => embedOk c) = [] <;> simp [h]

/-- A successful `answer_query` changes only the history, by appending the
new pair and applying the cap. -/
theorem answer_query_ok_state (env : QueryEnv) (s : DocumentSession) (q ans : String)
    (s' : DocumentSession) (h : answer_query env s q = (Except.ok ans, s')) :
    s' = { s with history := trimHistory (s.history ++ [⟨q, ans⟩]) } := by
  unfold answer_query at h
  split at h
  · split at h
    · simp at h
    · split at h
      · simp at h
      · simp only [Prod.mk.injEq, Except.ok.injEq] at h
        obtain ⟨h1, h2⟩ := h
        rw [← h2, h1]
  · simp at h

/-- An `answer_query` call that raises leaves the session untouched: the
history append is the last statement of the method. -/
theorem answer_query_error_state (env : QueryEnv) (s : DocumentSession) (q e : String)
    (s' : DocumentSession) (h : answer_query env s q = (Except.error e, s')) :
    s' = s := by
  unfold answer_query at h
  split at h
  · split at h
    · simp only [Prod.mk.injEq] at h
      exact h.2.symm
    · split at h
      · simp only [Prod.mk.injEq] at h
        exact h.2.symm
      · simp at h
  · simp only [Prod.mk.injEq] at h
    exact h.2.symm

/-- The cap is a plain drop-to-the-last-25: for short lists the dropped
amount is zero. -/
theorem trimHistory_eq_drop (l : List HistEntry) :
    trimHistory l = l.drop (l.length - 25) := by
  unfold trimHistory
  by_cases h : l.length > 25
  · simp [h]
  · have h0 : l.length - 25 = 0 := by omega
    simp [h, h0]

/-- Length after the cap. -/
theorem trimHistory_length (l : List HistEntry) :
    (trimHistory l).length = min l.length 25 := by
  rw [trimHistory_eq_drop, List.length_drop]
  omega

/-- Folding append-then-cap from a history of at most 25 entries keeps the
last 25 of the concatenation. -/
theorem foldl_trimStep_small (ps : List HistEntry) :
    ∀ h0 : List HistEntry, h0.length ≤ 25 →
      List.foldl trimStep h0 ps = (h0 ++ ps).drop (h0.length + ps.length - 25) := by
  induction ps with
  | nil =>
    intro h0 hle
    simp only [List.foldl_nil, List.append_nil, List.length_nil]
    have h0eq : h0.length + 0 - 25 = 0 := by omega
    rw [h0eq, List.drop_zero]
  | cons p rest ih =>
    intro h0 hle
    rw [List.foldl_cons]
    have hlen1 : (trimStep h0 p).length ≤ 25 := by
      rw [trimStep, trimHistory_length]
      simp
    rw [ih (trimStep h0 p) hlen1]
    by_cases hc : h0.length + 1 ≤ 25
    · have hA : trimStep h0 p = h0 ++ [p] := by
        rw [trimStep, trimHistory_eq_drop]
        have hz : (h0 ++ [p]).length - 25 = 0 := by simp; omega
        rw [hz, List.drop_zero]
      rw [hA]
      have e1 : (h0 ++ [p]) ++ rest = h0 ++ p :: rest := by simp
      rw [e1]
      congr 1
      simp
      omega
    · have hL : h0.length = 25 := by omega
      have hB : trimStep h0 p = (h0 ++ [p]).drop 1 := by
        rw [trimStep, trimHistory_eq_drop]
        congr 1
        simp
        omega
      rw [hB]
      have e2 : ((h0 ++ [p]).drop 1) ++ rest = (h0 ++ p :: rest).drop 1 := by
        rw [← List.drop_append_of_le_length (by simp)]
        congr 1
        simp
      rw [e2, List.drop_drop]
      congr 1
      simp [hL]
      omega

/-- Folding append-then-cap over at least 26 new pairs keeps exactly the
last 25 of the new pairs, whatever history it started from. -/
theorem foldl_trimStep_any (ps : List HistEntry) (h0 : List HistEntry)
    (hps : 26 ≤ ps.length) :
    List.foldl trimStep h0 ps = ps.drop (ps.length - 25) := by
  by_cases hh0 : h0.length ≤ 25
  · rw [foldl_trimStep_small ps h0 hh0]
    have harith : h0.length + ps.length - 25 = h0.length + (ps.length - 25) := by omega
    rw [harith]
    simp [List.drop_append]
  · cases ps with
    | nil => simp at hps
    | cons p rest =>
      have hr : 25 ≤ rest.length := by simp at hps; omega
      rw [List.foldl_cons]
      have hlen1 : (trimStep h0 p).length ≤ 25 := by
        rw [trimStep, trimHistory_length]
        simp
      rw [foldl_trimStep_small rest (trimStep h0 p) hlen1]
      have harith : (trimStep h0 p).length + rest.length - 25 =
          (trimStep h0 p).length + (rest.length - 25) := by omega
      rw [harith]
      have hdl : (p :: rest).length - 25 = (rest.length - 25) + 1 := by simp; omega
      rw [hdl, List.drop_succ_cons]
      simp [List.drop_append]

/-- A fully successful call sequence: as many produced pairs as calls, the
final history is the fold of append-then-cap over the produced pairs, and
no other field of the session changes. -/
theorem runCalls_ok (calls : List (QueryEnv × String)) :
    ∀ (s sF : DocumentSession) (ps : List HistEntry),
      runCalls s calls = Except.ok (sF, ps) →
      ps.length = calls.length ∧
      sF.history = List.foldl trimStep s.history ps ∧
      sF.session_id = s.session_id ∧
      sF.full_text = s.full_text ∧
      sF.vector_store_path = s.vector_store_path := by
  induction calls with
  | nil =>
    intro s sF ps h
    simp only [runCalls, Except.ok.injEq, Prod.mk.injEq] at h
    obtain ⟨h1, h2⟩ := h
    rw [← h1, ← h2]
    simp
  | cons c cs ih =>
    intro s sF ps h
    rw [runCalls] at h
    rcases haq : answer_query c.1 s c.2 with ⟨r, s₁⟩
    rw [haq] at h
    cases r with
    | error e => simp at h
    | ok ans =>
      dsimp only at h
      rcases hrc : runCalls s₁ cs with e' | ⟨sF', ps'⟩
      · rw [hrc] at h
        simp at h
      · rw [hrc] at h
        simp only [Except.ok.injEq, Prod.mk.injEq] at h
        obtain ⟨hF, hps⟩ := h
        obtain ⟨hlen, hhist, hid, hft, hvp⟩ := ih s₁ sF' ps' hrc
        have hs₁ := answer_query_ok_state c.1 s c.2 ans s₁ haq
        rw [← hps, ← hF]
        refine ⟨by simp [hlen], ?_, ?_, ?_, ?_⟩
        · rw [List.foldl_cons, hhist, hs₁]
          rfl
        · rw [hid, hs₁]
        · rw [hft, hs₁]
        · rw [hvp, hs₁]

/-! Claim theorems. -/

/-- Claim C1 counterexample: vector-index construction succeeds (the index
holds its one chunk), yet the background task marks the session ERROR,
because the initial-summary generation call raises.  So READY is not
equivalent to index construction finishing without an unhandled
exception. -/
theorem background_ready_iff_counterexample :
    _prepare_vector_store bgEnvSummaryFails.embedOk (bgEnvSummaryFails.chunker "doc") =
      Except.ok ["chunk"] ∧
    mkDocumentSession bgEnvSummaryFails.chunker bgEnvSummaryFails.embedOk "doc" "s1" =
      Except.ok ⟨"s1", "doc", "vector_stores/s1", []⟩ ∧
    (_process_text_background bgEnvSummaryFails "doc" "s1" entry0).status =
      SessionStatus.ERROR := by
  refine ⟨rfl, rfl, rfl⟩

/-- Claim C1, amended: after the background task the status is READY or
ERROR (never the constructing status), and it is READY exactly when both
session construction (vector-index build) and the initial-summary
generation finish without an unhandled exception. -/
theorem background_status_ready_iff (env : BackgroundEnv) (text sid : String)
    (entry : RegistryEntry) :
    ((_process_text_background env text sid entry).status = SessionStatus.READY ∨
      (_process_text_background env text sid entry).status = SessionStatus.ERROR) ∧
    ((_process_text_background env text sid entry).status = SessionStatus.READY ↔
      ∃ ds sm, mkDocumentSession env.chunker env.embedOk text sid = Except.ok ds ∧
        get_initial_summary env.gen ds = Except.ok sm) := by
  unfold _process_text_background
  cases hmk : mkDocumentSession env.chunker env.embedOk text sid with
  | error e => simp
  | ok ds =>
    cases hs : get_initial_summary env.gen ds with
    | error e => simp [hs]
    | ok sm => simp [hs]

/-- Claim C2: after more than 25 sequential successful `answer_query` calls
on one session, the history has length exactly 25 and holds the (query,
answer) pairs of the most recent 25 calls in call order. -/
theorem answer_query_history_trim (s : DocumentSession) (calls : List (QueryEnv × String))
    (sF : DocumentSession) (ps : List HistEntry)
    (hrun : runCalls s calls = Except.ok (sF, ps))
    (hN : 25 < calls.length) :
    sF.history.length = 25 ∧ ps.length = calls.length ∧
    sF.history = ps.drop (calls.length - 25) := by
  obtain ⟨hlen, hhist, -, -, -⟩ := runCalls_ok calls s sF ps hrun
  have h26 : 26 ≤ ps.length := by omega
  rw [hhist, foldl_trimStep_any ps s.history h26]
  refine ⟨?_, hlen, by rw [hlen]⟩
  rw [List.length_drop]
  omega

set_option maxRecDepth 8192 in
/-- Witness for C2: 26 successful calls on a fresh session leave a history
of exactly 25 pairs, namely calls 2 through 26. -/
theorem answer_query_history_trim_witness :
    runCalls sampleSession calls26 = Except.ok (sessionAfter26, pairs26) ∧
    25 < calls26.length ∧
    sessionAfter26.history.length = 25 ∧
    sessionAfter26.history = pairs26.drop (calls26.length - 25) := by
  have hrun : runCalls sampleSession calls26 = Except.ok (sessionAfter26, pairs26) := by rfl
  have h := answer_query_history_trim sampleSession calls26 sessionAfter26 pairs26 hrun
    (by decide)
  exact ⟨hrun, by decide, h.1, h.2.2⟩

/-- Claim C3: when the chunker yields zero segments, construction
deterministically raises (save_local is called on a still-None db), and the
background task always marks the session ERROR — never a silently unusable
state. -/
theorem empty_text_session_error (env : BackgroundEnv) (text sid : String)
    (entry : RegistryEntry) (h : env.chunker text = []) :
    mkDocumentSession env.chunker env.embedOk text sid = Except.error SAVE_NONE_ERROR ∧
    (_process_text_background env text sid entry).status = SessionStatus.ERROR := by
  have hmk : mkDocumentSession env.chunker env.embedOk text sid =
      Except.error SAVE_NONE_ERROR := by
    unfold mkDocumentSession
    rw [h]
    rfl
  refine ⟨hmk, ?_⟩
  unfold _process_text_background
  rw [hmk]

/-- Witness for C3: a whitespace-only text whose chunking is empty ends in
ERROR. -/
theorem empty_text_session_error_witness :
    bgEnvNoChunks.chunker "   " = [] ∧
    (_process_text_background bgEnvNoChunks "   " "s1" entry0).status =
      SessionStatus.ERROR :=
  ⟨rfl, (empty_text_session_error bgEnvNoChunks "   " "s1" entry0 rfl).2⟩

/-- Claim C4: a chunk whose embedding or index insertion raises is skipped,
construction continues with the remaining chunks and succeeds with exactly
the surviving chunks in order; it fails only when no chunk ever succeeds,
in which case save_local is called on a still-None index and raises. -/
theorem chunk_failure_skipped (embedOk : String → Bool) (chunks : List String) :
    ((∃ c ∈ chunks, embedOk c = true) →
      _prepare_vector_store embedOk chunks =
        Except.ok (chunks.filter fun c => embedOk c)) ∧
    ((∀ c ∈ chunks, embedOk c = false) →
      _prepare_vector_store embedOk chunks = Except.error SAVE_NONE_ERROR) := by
  rw [prepare_vector_store_eq]
  constructor
  · rintro ⟨c, hc, hok⟩
    have hne : (chunks.filter fun c => embedOk c) ≠ [] := by
      intro hemp
      have hmem : c ∈ chunks.filter fun c => embedOk c :=
        List.mem_filter.mpr ⟨hc, hok⟩
      rw [hemp] at hmem
      exact absurd hmem (List.not_mem_nil c)
    rw [if_neg hne]
  · intro hall
    have hnil : (chunks.filter fun c => embedOk c) = [] := by
      rw [List.filter_eq_nil_iff]
      intro a ha
      rw [hall a ha]
      simp
    rw [if_pos hnil]

/-- Witness for C4: the first chunk fails, the second succeeds, and the
session still gets an index holding exactly the surviving chunk. -/
theorem chunk_failure_skipped_witness :
    (∃ c ∈ ["a", "b"], onlyB c = true) ∧
    _prepare_vector_store onlyB ["a", "b"] = Except.ok ["b"] := by
  have hex : ∃ c ∈ ["a", "b"], onlyB c = true := ⟨"b", by decide, by decide⟩
  have h := (chunk_failure_skipped onlyB ["a", "b"]).1 hex
  have hfil : (["a", "b"].filter fun c => onlyB c) = ["b"] := by decide
  exact ⟨hex, by rw [h, hfil]⟩

/-- Claim C5: the batch embedding output is at most as long as the input
and is exactly the embeddings of the successfully embedded texts, taken as
a subsequence of the input in input order (failing texts are omitted,
survivors never reordered). -/
theorem embed_documents_subsequence (embed : String → Option (List Int))
    (texts : List String) :
    (embed_documents embed texts).length ≤ texts.length ∧
    (texts.filter fun t => (embed t).isSome).Sublist texts ∧
    embed_documents embed texts =
      (texts.filter fun t => (embed t).isSome).filterMap embed := by
  refine ⟨?_, List.filter_sublist texts, ?_⟩
  · induction texts with
    | nil => simp [embed_documents]
    | cons t ts ih =>
      cases h : embed t with
      | none =>
        simp only [embed_documents, h, List.length_cons]
        omega
      | some v =>
        simp only [embed_documents, h, List.length_cons]
        omega
  · induction texts with
    | nil => rfl
    | cons t ts ih =>
      cases h : embed t with
      | none => simp [embed_documents, h, List.filter_cons, ih]
      | some v => simp [embed_documents, h, List.filter_cons, List.filterMap_cons, ih]

/-- Claim C6: `_pick_model` probes the candidate list in order and returns
the first model whose probe call does not raise and yields a response with
a text attribute or a non-empty candidates field; if no candidate passes it
raises the fatal RuntimeError. -/
theorem pick_model_first_responsive (probe : String → Option ProbeResponse)
    (models : List String) :
    _pick_model probe = pickModelLoop probe CANDIDATE_MODELS ∧
    pickModelLoop probe models =
      (match models.find? (probeResult probe) with
        | some m => Except.ok m
        | none => Except.error PICK_MODEL_ERROR) := by
  refine ⟨rfl, ?_⟩
  induction models with
  | nil => rfl
  | cons m rest ih =>
    cases hp : probe m with
    | none =>
      have hres : probeResult probe m = false := by simp [probeResult, hp]
      simp only [pickModelLoop, hp, List.find?_cons, hres]
      exact ih
    | some r =>
      by_cases ha : probeAccept r
      · have hres : probeResult probe m = true := by simp [probeResult, hp, ha]
        simp only [pickModelLoop, hp, List.find?_cons, hres, ha, if_true]
      · have hres : probeResult probe m = false := by simp [probeResult, hp, ha]
        simp only [pickModelLoop, hp, List.find?_cons, hres, ha, if_false]
        exact ih

/-- Claim C7: `_generate` never returns the empty string when the model
call succeeds; when the (possibly absent) response text strips to empty it
returns the placeholder sentinel. -/
theorem generate_nonempty (t : Option String) :
    _generate t ≠ "" ∧
    (pyStrip (t.getD "") = "" → _generate t = NO_RESPONSE_SENTINEL) := by
  by_cases h : pyStrip (t.getD "") = ""
  · have he : _generate t = NO_RESPONSE_SENTINEL := by
      unfold _generate
      simp [h]
    rw [he]
    exact ⟨by decide, fun _ => rfl⟩
  · have he : _generate t = pyStrip (t.getD "") := by
      unfold _generate
      simp [h]
    rw [he]
    exact ⟨h, fun hc => absurd hc h⟩

/-- Witness for C7: a whitespace-only response text yields the sentinel,
hence a non-empty result. -/
theorem generate_nonempty_witness :
    pyStrip ((some " ").getD "") = "" ∧
    _generate (some " ") = NO_RESPONSE_SENTINEL ∧
    _generate (some " ") ≠ "" :=
  ⟨rfl, (generate_nonempty (some " ")).2 rfl, (generate_nonempty (some " ")).1⟩

/-- Claim C8: whatever the query and whatever the retrieval step returns,
the prompt assembled by `answer_query` contains the first 2000 characters
of the full text as the safety slice. -/
theorem prompt_contains_safety_slice (docs : List String) (s : DocumentSession)
    (q : String) :
    ∃ p₁ p₂, promptOf docs s q = p₁ ++ s.full_text.take 2000 ++ p₂ := by
  refine ⟨answerPromptHead ++ historyBlock s.history ++ "User question:\n" ++ q ++
      "\n\n--- Retrieved context from the document ---\n" ++
      String.intercalate "\n\n" docs ++
      "\n-------------------------------------------\n\n" ++
      "--- Safety slice of full document (fallback) ---\n",
    "\n------------------------------------------------\n\n" ++
      "Now produce the response EXACTLY in the format above, within 150 words.", ?_⟩
  simp only [promptOf, answerPrompt, String.append_assoc]

/-- Claim C9: a successful `answer_query` changes nothing but the history:
the session identifier, the full text and the vector-store path are
untouched, and the history is the old one with the new pair appended and
the cap applied. -/
theorem answer_query_frame (env : QueryEnv) (s : DocumentSession) (q ans : String)
    (s' : DocumentSession) (h : answer_query env s q = (Except.ok ans, s')) :
    s'.session_id = s.session_id ∧ s'.full_text = s.full_text ∧
    s'.vector_store_path = s.vector_store_path ∧
    s'.history = trimHistory (s.history ++ [⟨q, ans⟩]) := by
  have hs := answer_query_ok_state env s q ans s' h
  subst hs
  exact ⟨rfl, rfl, rfl, rfl⟩

/-- Witness for C9: one successful call on a fresh session. -/
theorem answer_query_frame_witness :
    answer_query qEnvOk sampleSession "q" = (Except.ok "A", sampleSession1) ∧
    (sampleSession1.session_id = sampleSession.session_id ∧
     sampleSession1.full_text = sampleSession.full_text ∧
     sampleSession1.vector_store_path = sampleSession.vector_store_path ∧
     sampleSession1.history = trimHistory (sampleSession.history ++ [⟨"q", "A"⟩])) := by
  have h : answer_query qEnvOk sampleSession "q" = (Except.ok "A", sampleSession1) := rfl
  exact ⟨h, answer_query_frame qEnvOk sampleSession "q" "A" sampleSession1 h⟩

/-- Claim C10: an `answer_query` call that raises anywhere (index loading,
retrieval, generation) returns no answer and leaves the session, in
particular its history, exactly as before: the pair is appended only after
generation succeeds. -/
theorem answer_query_error_atomic (env : QueryEnv) (s : DocumentSession)
    (q e : String) (s' : DocumentSession)
    (h : answer_query env s q = (Except.error e, s')) :
    s' = s ∧ s'.history = s.history := by
  have hs := answer_query_error_state env s q e s' h
  exact ⟨hs, by rw [hs]⟩

/-- Witness for C10: a call whose index load raises leaves the history of a
session with one prior entry unchanged. -/
theorem answer_query_error_atomic_witness :
    answer_query qEnvLoadFails sampleSession1 "q2" =
      (Except.error "load_local raised", sampleSession1) ∧
    (sampleSession1 = sampleSession1 ∧
     sampleSession1.history = sampleSession1.history) := by
  have h : answer_query qEnvLoadFails sampleSession1 "q2" =
      (Except.error "load_local raised", sampleSession1) := rfl
  exact ⟨h, answer_query_error_atomic qEnvLoadFails sampleSession1 "q2"
    "load_local raised" sampleSession1 h⟩

end LeBy
